import Mathlib

/-!
Shallow embedding of `src/web/src/instructions-view.ts` (the `InstructionsView`
Lit component of the ferrostar web demo) and proofs of the spec's testable
properties about it.

The component's whole logical surface is two functions:

* `roundToNearestTen(meters) = Math.round(meters / 10) * 10`;
* `render()`, which inspects the truthiness of `this.tripState?.Navigating`
  and either produces the maneuver card (icon collaborator invocation,
  instruction text, rounded distance) or renders nothing.

JavaScript numbers are modelled as `JSNum`: either `nan` or a finite rational
value (the idealised real-number semantics of ECMAScript arithmetic; no input
of this component produces an infinity).  `Math.round` is ECMAScript's
round-to-nearest with ties toward positive infinity, i.e. `⌊x + 1/2⌋` on
finite values, and `NaN ↦ NaN`.
-/

namespace InstructionsView

/-- A JavaScript number: `NaN` or a finite value, modelled as a rational. -/
inductive JSNum where
  | nan : JSNum
  | fin : ℚ → JSNum
deriving DecidableEq

/-- ECMAScript `Math.round` on a finite value: round to the nearest integer,
ties toward positive infinity, i.e. `⌊x + 1/2⌋` (stated computably through
`Rat.floor`; see `jsRound_eq`). -/
def jsRound (x : ℚ) : ℤ := (x + 1 / 2).floor

theorem jsRound_eq (x : ℚ) : jsRound x = ⌊x + 1 / 2⌋ := rfl

/-- ECMAScript `Math.round` lifted to `JSNum`: `NaN` propagates. -/
def mathRound : JSNum → JSNum
  | .nan => .nan
  | .fin q => .fin (jsRound q)

/-- Division of a JavaScript number by the literal `10`. -/
def JSNum.div10 : JSNum → JSNum
  | .nan => .nan
  | .fin q => .fin (q / 10)

/-- Multiplication of a JavaScript number by the literal `10`. -/
def JSNum.mul10 : JSNum → JSNum
  | .nan => .nan
  | .fin q => .fin (q * 10)

/-- `private roundToNearestTen(meters: number) { return Math.round(meters / 10) * 10; }` -/
def roundToNearestTen (meters : JSNum) : JSNum :=
  (mathRound meters.div10).mul10

/-- The `primaryContent` record of a visual instruction; the component only
reads its `text` field. -/
structure PrimaryContent where
  text : String
deriving DecidableEq

/-- The `visualInstruction` value carried by a `Navigating` trip state.  It is
opaque to this component apart from `primaryContent.text`; the whole value is
forwarded to the `maneuver-image` collaborator. -/
structure VisualInstruction where
  primaryContent : PrimaryContent
deriving DecidableEq

/-- The `progress` record of a `Navigating` trip state; the component only
reads `distanceToNextManeuver`. -/
structure Progress where
  distanceToNextManeuver : JSNum
deriving DecidableEq

/-- The payload object held under the `Navigating` key of a trip state. -/
structure NavigatingPayload where
  visualInstruction : VisualInstruction
  progress : Progress
deriving DecidableEq

/-- The JavaScript value found at property `Navigating` of the (untyped)
`tripState` object.  `undefinedV` covers every trip-state object without a
`Navigating` key (`{Idle: {}}`, `{Arrived: {}}`, `{}` …); the remaining
constructors cover the primitive values and a well-formed payload object. -/
inductive JSField where
  | undefinedV : JSField
  | nullV : JSField
  | boolV : Bool → JSField
  | numV : JSNum → JSField
  | strV : String → JSField
  | objV : NavigatingPayload → JSField
deriving DecidableEq

/-- JavaScript truthiness of a `JSField` value: `undefined`, `null`, `false`,
`0`, `NaN` and `""` are falsy, every other value is truthy. -/
def truthy : JSField → Bool
  | .undefinedV => false
  | .nullV => false
  | .boolV b => b
  | .numV .nan => false
  | .numV (.fin q) => q != 0
  | .strV s => s != ""
  | .objV _ => true

/-- The observable part of a `tripState` object: the component only ever reads
the `Navigating` property, so an object is modelled by that property's value. -/
structure TripStateObj where
  Navigating : JSField
deriving DecidableEq

/-- The presentation record produced by a successful render: the value handed
to the `maneuver-image` collaborator, the instruction text paragraph, and the
rounded distance paragraph. -/
structure Presentation where
  icon : VisualInstruction
  text : String
  roundedDistanceMeters : JSNum
deriving DecidableEq

/-- Result of `render()`: the suppressed-render signal (the method returns
`undefined`), the maneuver card, or a thrown `TypeError` (reached only when
`Navigating` is truthy yet not an object carrying the payload, so that the
chained property access `Navigating.visualInstruction.primaryContent` faults). -/
inductive RenderResult where
  | nothing : RenderResult
  | card : Presentation → RenderResult
  | thrown : RenderResult
deriving DecidableEq

/-- `render()` of `InstructionsView`.  `this.tripState` is `Option TripStateObj`
(`none` is a `null` or `undefined` trip state, short-circuited by the optional
chaining `this.tripState?.Navigating`). -/
def render (tripState : Option TripStateObj) : RenderResult :=
  match tripState with
  | none => .nothing
  | some ts =>
    if truthy ts.Navigating then
      match ts.Navigating with
      | .objV p =>
          .card { icon := p.visualInstruction
                  text := p.visualInstruction.primaryContent.text
                  roundedDistanceMeters :=
                    roundToNearestTen p.progress.distanceToNextManeuver }
      | _ => .thrown
    else .nothing

/-- The `visualInstruction` values passed to the `maneuver-image` icon-rendering
collaborator by one render: exactly one when the card is produced, none
otherwise. -/
def iconInvocations : RenderResult → List VisualInstruction
  | .card p => [p.icon]
  | _ => []

theorem roundToNearestTen_fin (q : ℚ) :
    roundToNearestTen (.fin q) = .fin ((jsRound (q / 10) : ℚ) * 10) := rfl

theorem jsRound_le (x : ℚ) : (jsRound x : ℚ) ≤ x + 1 / 2 := by
  rw [jsRound_eq]
  exact Int.floor_le _

theorem lt_jsRound_add_one (x : ℚ) : x + 1 / 2 < (jsRound x : ℚ) + 1 := by
  rw [jsRound_eq]
  exact Int.lt_floor_add_one _

theorem jsRound_eq_of (x : ℚ) (n : ℤ) (h1 : (n : ℚ) ≤ x + 1 / 2)
    (h2 : x + 1 / 2 < (n : ℚ) + 1) : jsRound x = n := by
  rw [jsRound_eq]
  exact Int.floor_eq_iff.mpr ⟨h1, by exact_mod_cast h2⟩

theorem jsRound_intCast (n : ℤ) : jsRound (n : ℚ) = n :=
  jsRound_eq_of _ n (by linarith) (by linarith)

theorem roundToNearestTen_eq_of (q r : ℚ) (n : ℤ) (h1 : (n : ℚ) ≤ q / 10 + 1 / 2)
    (h2 : q / 10 + 1 / 2 < (n : ℚ) + 1) (h3 : (n : ℚ) * 10 = r) :
    roundToNearestTen (.fin q) = .fin r := by
  rw [roundToNearestTen_fin, jsRound_eq_of (q / 10) n h1 h2, h3]

theorem render_nothing_of_falsy (ts : TripStateObj) (hf : truthy ts.Navigating = false) :
    render (some ts) = .nothing := by
  simp [render, hf]

/-- C1: for every trip state whose active variant is not `Navigating` — the
`Navigating` property is absent, as for `{Idle: {}}` — and likewise for a null
trip state, `render` produces the suppressed-render signal `RenderResult.nothing`
(not an empty or error presentation) and the icon-rendering collaborator is
invoked zero times. -/
theorem c1_non_navigating_renders_nothing :
    (render none = .nothing ∧ iconInvocations (render none) = []) ∧
    ∀ ts : TripStateObj, ts.Navigating = .undefinedV →
      render (some ts) = .nothing ∧ iconInvocations (render (some ts)) = [] := by
  refine ⟨⟨rfl, rfl⟩, fun ts h => ?_⟩
  have hn : render (some ts) = .nothing := render_nothing_of_falsy ts (by rw [h]; rfl)
  exact ⟨hn, by rw [hn]; rfl⟩

theorem c1_witness :
    render (some ⟨.undefinedV⟩) = .nothing ∧
      iconInvocations (render (some ⟨.undefinedV⟩)) = [] :=
  c1_non_navigating_renders_nothing.2 ⟨.undefinedV⟩ rfl

/-- C2: for every `Navigating` payload, the produced card's text is exactly
`visualInstruction.primaryContent.text`, the `visualInstruction` value is passed
unchanged to the icon-rendering collaborator, and the distance field is passed
unchanged into `roundToNearestTen`. -/
theorem c2_navigating_passthrough (p : NavigatingPayload) :
    render (some ⟨.objV p⟩) =
      .card { icon := p.visualInstruction
              text := p.visualInstruction.primaryContent.text
              roundedDistanceMeters := roundToNearestTen p.progress.distanceToNextManeuver } ∧
    iconInvocations (render (some ⟨.objV p⟩)) = [p.visualInstruction] :=
  ⟨rfl, rfl⟩

/-- C3: for every non-negative finite input `q`, `roundToNearestTen` returns an
integer divisible by 10 with `|result - q| ≤ 5`, and equality holds only when
`q` is an odd multiple of 5 (the tie-break points). -/
theorem c3_rounding_property (q : ℚ) (hq : 0 ≤ q) :
    ∃ z : ℤ, roundToNearestTen (.fin q) = .fin (z : ℚ) ∧ (10 : ℤ) ∣ z ∧
      |(z : ℚ) - q| ≤ 5 ∧ (|(z : ℚ) - q| = 5 → ∃ k : ℤ, q = 5 * (2 * (k : ℚ) + 1)) := by
  have h1 := jsRound_le (q / 10)
  have h2 := lt_jsRound_add_one (q / 10)
  refine ⟨10 * jsRound (q / 10), ?_, ⟨jsRound (q / 10), rfl⟩, ?_, ?_⟩
  · simp only [roundToNearestTen_fin, JSNum.fin.injEq]
    push_cast
    ring
  · rw [abs_le]
    constructor <;> push_cast <;> linarith
  · intro habs
    rcases (abs_eq (by norm_num : (0:ℚ) ≤ 5)).mp habs with he | he
    · refine ⟨jsRound (q / 10) - 1, ?_⟩
      push_cast at he ⊢
      linarith
    · push_cast at he
      linarith

theorem c3_witness :
    ∃ z : ℤ, roundToNearestTen (.fin 3) = .fin (z : ℚ) ∧ (10 : ℤ) ∣ z ∧
      |(z : ℚ) - 3| ≤ 5 ∧ (|(z : ℚ) - 3| = 5 → ∃ k : ℤ, (3 : ℚ) = 5 * (2 * (k : ℚ) + 1)) :=
  c3_rounding_property 3 (by norm_num)

/-- C4: the concrete cases of the distance formatter:
`round(0) = 0`, `round(4) = 0`, `round(5) = 10`, `round(12) = 10`,
`round(17) = 20`, `round(123.4) = 120`. -/
theorem c4_concrete_cases :
    roundToNearestTen (.fin 0) = .fin 0 ∧ roundToNearestTen (.fin 4) = .fin 0 ∧
    roundToNearestTen (.fin 5) = .fin 10 ∧ roundToNearestTen (.fin 12) = .fin 10 ∧
    roundToNearestTen (.fin 17) = .fin 20 ∧
    roundToNearestTen (.fin (123.4 : ℚ)) = .fin 120 :=
  ⟨roundToNearestTen_eq_of 0 0 0 (by norm_num) (by norm_num) (by norm_num),
   roundToNearestTen_eq_of 4 0 0 (by norm_num) (by norm_num) (by norm_num),
   roundToNearestTen_eq_of 5 10 1 (by norm_num) (by norm_num) (by norm_num),
   roundToNearestTen_eq_of 12 10 1 (by norm_num) (by norm_num) (by norm_num),
   roundToNearestTen_eq_of 17 20 2 (by norm_num) (by norm_num) (by norm_num),
   roundToNearestTen_eq_of 123.4 120 12 (by norm_num) (by norm_num) (by norm_num)⟩

/-- C5: the distance formatter is idempotent on every JavaScript number,
`NaN` included: `roundToNearestTen (roundToNearestTen m) = roundToNearestTen m`. -/
theorem c5_idempotent (m : JSNum) :
    roundToNearestTen (roundToNearestTen m) = roundToNearestTen m := by
  cases m with
  | nan => rfl
  | fin q =>
    rw [roundToNearestTen_fin, roundToNearestTen_fin]
    have hdiv : ((jsRound (q / 10) : ℚ) * 10) / 10 = (jsRound (q / 10) : ℚ) := by
      field_simp
    rw [hdiv, jsRound_intCast]

/-- C6: end-to-end: a `Navigating` trip state with text "Turn right" and
distance 347 renders the card with text "Turn right" and rounded distance 350,
with exactly one icon-render invocation carrying that `visualInstruction`;
an `{Idle: {}}` trip state and a null trip state render nothing and invoke the
icon collaborator zero times. -/
theorem c6_end_to_end :
    render (some ⟨.objV ⟨⟨⟨"Turn right"⟩⟩, ⟨.fin 347⟩⟩⟩) =
      .card ⟨⟨⟨"Turn right"⟩⟩, "Turn right", .fin 350⟩ ∧
    iconInvocations (render (some ⟨.objV ⟨⟨⟨"Turn right"⟩⟩, ⟨.fin 347⟩⟩⟩)) =
      [⟨⟨"Turn right"⟩⟩] ∧
    render (some ⟨.undefinedV⟩) = .nothing ∧
    iconInvocations (render (some ⟨.undefinedV⟩)) = [] ∧
    render none = .nothing ∧
    iconInvocations (render none) = [] := by
  have h347 : roundToNearestTen (.fin 347) = .fin 350 :=
    roundToNearestTen_eq_of 347 350 35 (by norm_num) (by norm_num) (by norm_num)
  refine ⟨?_, rfl, rfl, rfl, rfl, rfl⟩
  show RenderResult.card ⟨⟨⟨"Turn right"⟩⟩, "Turn right", roundToNearestTen (.fin 347)⟩ = _
  rw [h347]

/-- C7: every produced rounded distance is an integer multiple of 10 with the
same sign as the finite input: non-negative for non-negative inputs,
non-positive for negative inputs. -/
theorem c7_multiple_of_ten_and_sign (q : ℚ) :
    ∃ z : ℤ, roundToNearestTen (.fin q) = .fin (z : ℚ) ∧ (10 : ℤ) ∣ z ∧
      (0 ≤ q → 0 ≤ z) ∧ (q < 0 → z ≤ 0) := by
  have h1 := jsRound_le (q / 10)
  have h2 := lt_jsRound_add_one (q / 10)
  refine ⟨10 * jsRound (q / 10), ?_, ⟨jsRound (q / 10), rfl⟩, fun hq => ?_, fun hq => ?_⟩
  · simp only [roundToNearestTen_fin, JSNum.fin.injEq]
    push_cast
    ring
  · have hc : (-1 : ℚ) < (jsRound (q / 10) : ℚ) := by linarith
    have hn : (-1 : ℤ) < jsRound (q / 10) := by exact_mod_cast hc
    omega
  · have hc : ((jsRound (q / 10)) : ℚ) < 1 := by linarith
    have hn : jsRound (q / 10) < 1 := by exact_mod_cast hc
    omega

theorem c7_witness :
    ∃ z : ℤ, roundToNearestTen (.fin 7) = .fin (z : ℚ) ∧ (10 : ℤ) ∣ z ∧
      ((0 : ℚ) ≤ 7 → 0 ≤ z) ∧ ((7 : ℚ) < 0 → z ≤ 0) :=
  c7_multiple_of_ten_and_sign 7

/-- C8: the formatter has no guard or clamping: `NaN` propagates (`NaN` comes
out exactly when `NaN` goes in), every negative finite input yields the plain
divide-round-multiply arithmetic result, and in particular `round(-26) = -30`
(strictly negative, not clamped to 0); the function is total, raising no error. -/
theorem c8_no_guard :
    (∀ m : JSNum, roundToNearestTen m = .nan ↔ m = .nan) ∧
    (∀ q : ℚ, q < 0 → roundToNearestTen (.fin q) = .fin ((jsRound (q / 10) : ℚ) * 10)) ∧
    roundToNearestTen (.fin (-26)) = .fin (-30) := by
  refine ⟨fun m => ?_, fun q _ => roundToNearestTen_fin q, ?_⟩
  · cases m with
    | nan => exact iff_of_true rfl rfl
    | fin q => simp [roundToNearestTen_fin]
  · exact roundToNearestTen_eq_of (-26) (-30) (-3) (by norm_num) (by norm_num) (by norm_num)

theorem c8_witness :
    roundToNearestTen (.fin (-7)) = .fin ((jsRound ((-7) / 10) : ℚ) * 10) :=
  c8_no_guard.2.1 (-7) (by norm_num)

/-- C9: the tie-break is round-half-toward-positive-infinity: every exact
half-multiple `10k + 5` rounds to `10k + 10` (so `round(5) = 10`,
`round(15) = 20`, `round(-5) = 0`, `round(-15) = -10`), which is neither
round-half-away-from-zero (that would give `round(-5) = -10`) nor
round-half-to-even (that would give `round(5) = 0`). -/
theorem c9_ties_toward_positive_infinity :
    (∀ k : ℤ, roundToNearestTen (.fin (10 * (k : ℚ) + 5)) = .fin ((k : ℚ) * 10 + 10)) ∧
    roundToNearestTen (.fin 5) = .fin 10 ∧
    roundToNearestTen (.fin 15) = .fin 20 ∧
    roundToNearestTen (.fin (-5)) = .fin 0 ∧
    roundToNearestTen (.fin (-15)) = .fin (-10) := by
  refine ⟨fun k => roundToNearestTen_eq_of _ _ (k + 1) ?_ ?_ ?_,
    roundToNearestTen_eq_of 5 10 1 (by norm_num) (by norm_num) (by norm_num),
    roundToNearestTen_eq_of 15 20 2 (by norm_num) (by norm_num) (by norm_num),
    roundToNearestTen_eq_of (-5) 0 0 (by norm_num) (by norm_num) (by norm_num),
    roundToNearestTen_eq_of (-15) (-10) (-1) (by norm_num) (by norm_num) (by norm_num)⟩
  · push_cast
    linarith
  · push_cast
    linarith
  · push_cast
    ring

/-- C10: the classifier decides by JavaScript truthiness of the `Navigating`
property, not by key presence: every falsy value stored under `Navigating`
(`undefined`, `null`, `0`, `false`, the empty string) suppresses rendering
exactly as an `Idle` or null trip state does. -/
theorem c10_truthiness_decides :
    (∀ f : JSField, truthy f = false →
      render (some ⟨f⟩) = .nothing ∧ iconInvocations (render (some ⟨f⟩)) = []) ∧
    truthy .undefinedV = false ∧ truthy .nullV = false ∧
    truthy (.numV (.fin 0)) = false ∧ truthy (.boolV false) = false ∧
    truthy (.strV "") = false := by
  refine ⟨fun f hf => ?_, rfl, rfl, by simp [truthy], rfl, by simp [truthy]⟩
  have hn : render (some ⟨f⟩) = .nothing := render_nothing_of_falsy ⟨f⟩ hf
  exact ⟨hn, by rw [hn]; rfl⟩

theorem c10_witness :
    render (some ⟨.numV (.fin 0)⟩) = .nothing ∧
      iconInvocations (render (some ⟨.numV (.fin 0)⟩)) = [] :=
  c10_truthiness_decides.1 (.numV (.fin 0)) (by simp [truthy])

end InstructionsView
